import Mathlib

/-!
Verification of the interview-tasks repository: a task runner (sequential and
concurrency-limited execution of timed tasks), a closure-based counter, and a
sliding-window rate limiter.

The task runner file exists in two variants in the repository:
variant 1 throws the string "Not implemented" from both entry points
(embedded with `Except String`), and variant 2 declares both entry points as
empty async functions resolving with `undefined` (embedded with `Option`,
where `none` is the undefined value).  In both variants only the helper
`executeTask` is actually implemented.

Time is simulated: `executeTask` schedules its resolution `task.duration`
time units after being called, so each embedded operation takes the current
simulated clock value and returns the clock value at which its promise
resolves.
-/

namespace InterviewTasks

/-- A task as described in the task-runner file: an identifier together with a
simulated duration. -/
structure Task where
  id : Nat
  duration : Nat

/-- The result object produced by `executeTask`.  Variant 1 of the source
builds `\x7b id, completedAt \x7d` (so `startedAt` is the absent/undefined
field, embedded as `none`); variant 2 builds
`\x7b id, startedAt, completedAt \x7d` (embedded as `some`). -/
structure TaskResult where
  id : Nat
  startedAt : Option Nat
  completedAt : Nat

/-- Embedding of `executeTask` from variant 1 of taskRunner.js: it returns a
promise that resolves `task.duration` time units later with
`\x7b id: task.id, completedAt: Date.now() \x7d`.  The second component is the
simulated time at which the promise resolves. -/
def executeTaskV1 (task : Task) (now : Nat) : TaskResult × Nat :=
  ({ id := task.id, startedAt := none, completedAt := now + task.duration },
    now + task.duration)

/-- Embedding of `executeTask` from variant 2 of taskRunner.js: it records
`startedAt = Date.now()` at call time and resolves `task.duration` time units
later with `\x7b id: task.id, startedAt, completedAt: Date.now() \x7d`. -/
def executeTaskV2 (task : Task) (now : Nat) : TaskResult × Nat :=
  ({ id := task.id, startedAt := some now, completedAt := now + task.duration },
    now + task.duration)

/-- Embedding of `executeTasksSequentially` from variant 1 of taskRunner.js:
the body is `throw new Error("Not implemented")` for every input. -/
def executeTasksSequentiallyV1 (tasks : List Task) :
    Except String (List TaskResult) :=
  Except.error "Not implemented"

/-- Embedding of `executeTasksWithConcurrency` from variant 1 of
taskRunner.js: the body is `throw new Error("Not implemented")` for every
input. -/
def executeTasksWithConcurrencyV1 (tasks : List Task)
    (concurrencyLimit : Nat) : Except String (List TaskResult) :=
  Except.error "Not implemented"

/-- Embedding of `executeTasksSequentially` from variant 2 of taskRunner.js:
an async function with an empty body, whose promise resolves with
`undefined` (embedded as `none`) for every input. -/
def executeTasksSequentiallyV2 (tasks : List Task) :
    Option (List TaskResult) :=
  none

/-- Embedding of `executeTasksWithConcurrency` from variant 2 of
taskRunner.js: an async function with an empty body, whose promise resolves
with `undefined` (embedded as `none`) for every input. -/
def executeTasksWithConcurrencyV2 (tasks : List Task)
    (concurrencyLimit : Nat) : Option (List TaskResult) :=
  none

/-- The type a counter produced by `createIncrement` would have in a pure
state-passing embedding: given the private captured count it returns the
value of the call together with the updated count. -/
def IncrementFn : Type := Nat → Nat × Nat

/-- Embedding of `createIncrement` from increment.js: the exported function
has an empty body, so it returns `undefined` (embedded as `none`) instead of
a counter function. -/
def createIncrement : Option IncrementFn := none

/-- The counter functions obtained from `numCalls` separate calls to
`createIncrement`: each call evaluates `createIncrement`, and the calls that
actually return a function are collected.  Since every call returns
`undefined`, this list is empty for every `numCalls`. -/
def createIncrementInstances (numCalls : Nat) : List IncrementFn :=
  (List.replicate numCalls createIncrement).filterMap id

/-- One run of an interleaving of calls to two counter functions `f` and `g`,
each carrying its own private count: `true` in the schedule calls `f`,
`false` calls `g`; the run records which instance answered together with the
returned value. -/
def runInterleaved (f g : IncrementFn) :
    List Bool → Nat → Nat → List (Bool × Nat)
  | [], _, _ => []
  | true :: rest, sa, sb =>
    (true, (f sa).1) :: runInterleaved f g rest (f sa).2 sb
  | false :: rest, sa, sb =>
    (false, (g sb).1) :: runInterleaved f g rest sa (g sb).2

/-- Independence of two counter instances, as the spec states it: under every
interleaving of calls (both counts starting from 0), each instance returns
exactly the sequence it would return if the other were never called, namely
1, 2, 3, ... -/
def IndependentCounters (f g : IncrementFn) : Prop :=
  ∀ schedule : List Bool,
    (((runInterleaved f g schedule 0 0).filter fun p => p.1).map
        fun p => p.2) = List.range' 1 (schedule.count true) ∧
      (((runInterleaved f g schedule 0 0).filter fun p => !p.1).map
        fun p => p.2) = List.range' 1 (schedule.count false)

/-- The (startedAt, completedAt) intervals of the tasks started during an
execution of variant 1's `executeTasksWithConcurrency`: the body throws
"Not implemented" before invoking `executeTaskV1` on any task, so an
execution starts no task at all. -/
def startedIntervalsV1 (tasks : List Task) (concurrencyLimit : Nat) :
    List (Nat × Nat) := []

/-- The (startedAt, completedAt) intervals of the tasks started during an
execution of variant 2's `executeTasksWithConcurrency`: the async body is
empty and resolves with undefined without invoking `executeTaskV2`, so an
execution starts no task at all. -/
def startedIntervalsV2 (tasks : List Task) (concurrencyLimit : Nat) :
    List (Nat × Nat) := []

/-- The number of tasks simultaneously in flight (started but not yet
completed) at instant `t`, given the start/completion intervals of the
started tasks. -/
def inFlightCount (intervals : List (Nat × Nat)) (t : Nat) : Nat :=
  (intervals.filter fun iv => decide (iv.1 ≤ t ∧ t < iv.2)).length

/-- Modelled from the spec: the implementation file rateLimiter.js is not in
the sources (only its test is), so the limiter is modelled from the spec.
The limiter owns an ordered list of timestamps of admitted calls; on a call
at time `now` it prunes entries older than `windowMs` (an entry `ts` is
recent when `now < ts + windowMs`; the boundary call at exactly
`now - windowMs` is outside the window) and admits the call exactly when
fewer than `maxCalls` recent entries remain, appending `now` on admission.
`rlAdmitted` runs the limiter over a list of call timestamps from a given
history and returns the timestamps of the admitted calls (the calls at which
the wrapped callback is invoked); dropped calls leave no trace. -/
def rlAdmitted (maxCalls windowMs : Nat) : List Nat → List Nat → List Nat
  | _, [] => []
  | history, now :: rest =>
    if (history.filter fun ts => decide (now < ts + windowMs)).length
        < maxCalls then
      now :: rlAdmitted maxCalls windowMs
        ((history.filter fun ts => decide (now < ts + windowMs)) ++ [now]) rest
    else
      rlAdmitted maxCalls windowMs
        (history.filter fun ts => decide (now < ts + windowMs)) rest

/-- Modelled from the spec: the function produced by
`createRateLimiter(callback, maxCalls, windowMs)`, run on a whole sequence of
call timestamps starting from the empty history.  The result lists the
timestamps of the calls that invoke the callback. -/
def createRateLimiter (maxCalls windowMs : Nat) (calls : List Nat) :
    List Nat :=
  rlAdmitted maxCalls windowMs [] calls

/-- The number of entries of `l` lying in the trailing window of length
`windowMs` ending at time `t`, i.e. entries `a` with `a ≤ t < a + windowMs`. -/
def windowCount (windowMs t : Nat) (l : List Nat) : Nat :=
  (l.filter fun a => decide (a ≤ t ∧ t < a + windowMs)).length

/-! ### Helper lemmas about `windowCount` and `rlAdmitted` -/

/-- The window count of a concatenation is the sum of the window counts. -/
theorem windowCount_append (W t : Nat) (l1 l2 : List Nat) :
    windowCount W t (l1 ++ l2) = windowCount W t l1 + windowCount W t l2 := by
  unfold windowCount
  rw [List.filter_append, List.length_append]

/-- The window count of a cons splits off the head. -/
theorem windowCount_cons (W t a : Nat) (l : List Nat) :
    windowCount W t (a :: l) =
      windowCount W t l + (if a ≤ t ∧ t < a + W then 1 else 0) := by
  unfold windowCount
  rw [List.filter_cons]
  by_cases h : a ≤ t ∧ t < a + W
  · simp [h]
  · simp [h]

/-- A window never counts more entries than the list has. -/
theorem windowCount_le_length (W t : Nat) (l : List Nat) :
    windowCount W t l ≤ l.length :=
  List.length_filter_le _ _

/-- A window ending at `t` counts no entry of a list whose entries all lie
strictly after `t`. -/
theorem windowCount_eq_zero (W t : Nat) (l : List Nat)
    (h : ∀ a ∈ l, t < a) : windowCount W t l = 0 := by
  unfold windowCount
  rw [List.length_eq_zero, List.filter_eq_nil_iff]
  intro a ha
  simp only [decide_eq_true_eq, not_and]
  intro hat
  exact absurd hat (Nat.not_le.mpr (h a ha))

/-- Pruning entries that left the window by time `now` does not change the
count of any window ending at `t ≥ now`. -/
theorem windowCount_filter (W t now : Nat) (l : List Nat) (h : now ≤ t) :
    windowCount W t (l.filter fun ts => decide (now < ts + W)) =
      windowCount W t l := by
  unfold windowCount
  rw [List.filter_filter]
  congr 1
  apply List.filter_congr
  intro a _
  by_cases hwin : a ≤ t ∧ t < a + W
  · have hnw : now < a + W := Nat.lt_of_le_of_lt h hwin.2
    simp [hwin, hnw]
  · simp [hwin]

/-- No call to `createIncrement` ever returns a function, so the list of
produced counter instances is empty however many calls are made. -/
theorem createIncrementInstances_eq_nil (numCalls : Nat) :
    createIncrementInstances numCalls = [] := by
  induction numCalls with
  | zero => rfl
  | succ k ih =>
    simp only [createIncrementInstances, createIncrement,
      List.replicate_succ, List.filterMap_cons] at ih ⊢
    simp [ih]

/-- Every admitted call is one of the supplied calls. -/
theorem rlAdmitted_subset (N W : Nat) :
    ∀ (calls history : List Nat), ∀ x ∈ rlAdmitted N W history calls,
      x ∈ calls := by
  intro calls
  induction calls with
  | nil =>
    intro history x hx
    simp [rlAdmitted] at hx
  | cons now rest ih =>
    intro history x hx
    rw [rlAdmitted] at hx
    split_ifs at hx with hif
    · rcases List.mem_cons.mp hx with h | h
      · exact h ▸ List.mem_cons_self _ _
      · exact List.mem_cons_of_mem _ (ih _ x h)
    · exact List.mem_cons_of_mem _ (ih _ x hx)

/-- Main invariant of the limiter run: starting from any history whose
entries precede all remaining calls and whose length is at most `N`, every
trailing window of length `W` contains at most `N` entries of the history
together with the admitted calls. -/
theorem rlAdmitted_windowCount (N W : Nat) (calls : List Nat)
    (hmono : List.Pairwise (· ≤ ·) calls) :
    ∀ (history : List Nat) (t : Nat),
      (∀ s ∈ history, ∀ c ∈ calls, s ≤ c) →
      history.length ≤ N →
      windowCount W t (history ++ rlAdmitted N W history calls) ≤ N := by
  induction hmono with
  | nil =>
    intro history t _ hlen
    have h1 := windowCount_le_length W t history
    simpa [rlAdmitted] using Nat.le_trans h1 hlen
  | @cons now rest hnow htail ih =>
    intro history t hhc hlen
    rw [rlAdmitted]
    split_ifs with hif
    · -- the call at `now` is admitted
      by_cases ht : now ≤ t
      · have h1 : ∀ s ∈ (history.filter fun ts => decide (now < ts + W))
            ++ [now], ∀ c ∈ rest, s ≤ c := by
          intro s hs c hc
          rcases List.mem_append.mp hs with h | h
          · exact hhc s (List.mem_of_mem_filter h) c
              (List.mem_cons_of_mem _ hc)
          · have hsn : s = now := by simpa using h
            exact hsn ▸ hnow c hc
        have h2 : ((history.filter fun ts => decide (now < ts + W))
            ++ [now]).length ≤ N := by
          simp only [List.length_append, List.length_singleton]
          omega
        have hIH := ih _ t h1 h2
        rw [windowCount_append, windowCount_append, windowCount_cons,
          windowCount_filter W t now history ht] at hIH
        rw [windowCount_append, windowCount_cons]
        have hnil : windowCount W t ([] : List Nat) = 0 := rfl
        rw [hnil] at hIH
        omega
      · have hz : windowCount W t
            (now :: rlAdmitted N W
              ((history.filter fun ts => decide (now < ts + W)) ++ [now])
              rest) = 0 := by
          apply windowCount_eq_zero
          intro a ha
          rcases List.mem_cons.mp ha with h | h
          · omega
          · have ha2 : a ∈ rest := rlAdmitted_subset N W rest _ a h
            have := hnow a ha2
            omega
        rw [windowCount_append, hz]
        have h1 := windowCount_le_length W t history
        omega
    · -- the call at `now` is dropped
      by_cases ht : now ≤ t
      · have h1 : ∀ s ∈ (history.filter fun ts => decide (now < ts + W)),
            ∀ c ∈ rest, s ≤ c := by
          intro s hs c hc
          exact hhc s (List.mem_of_mem_filter hs) c
            (List.mem_cons_of_mem _ hc)
        have h2 : (history.filter fun ts => decide (now < ts + W)).length
            ≤ N :=
          Nat.le_trans (List.length_filter_le _ _) hlen
        have hIH := ih _ t h1 h2
        rw [windowCount_append,
          windowCount_filter W t now history ht] at hIH
        rw [windowCount_append]
        exact hIH
      · have hz : windowCount W t
            (rlAdmitted N W
              (history.filter fun ts => decide (now < ts + W)) rest) = 0 := by
          apply windowCount_eq_zero
          intro a ha
          have ha2 : a ∈ rest := rlAdmitted_subset N W rest _ a ha
          have := hnow a ha2
          omega
        rw [windowCount_append, hz]
        have h1 := windowCount_le_length W t history
        omega

/-! ### Claim theorems -/

/-- Claim C1 (code-bug evidence): at the spec's own example input (durations
300, 100, 200 at concurrency 3), `executeTasksWithConcurrency` does not
resolve with any result list: variant 1 throws "Not implemented" and
variant 2 resolves with undefined, so no ordered result list exists. -/
theorem executeTasksWithConcurrency_produces_no_results :
    executeTasksWithConcurrencyV1 [⟨1, 300⟩, ⟨2, 100⟩, ⟨3, 200⟩] 3
        = Except.error "Not implemented" ∧
      executeTasksWithConcurrencyV2 [⟨1, 300⟩, ⟨2, 100⟩, ⟨3, 200⟩] 3 = none :=
  ⟨rfl, rfl⟩

/-- Claim C2: at every instant `t` during an execution of
`executeTasksWithConcurrency(tasks, K)` the number of tasks simultaneously in
flight never exceeds `K`.  Both source variants start no task at all
(variant 1 throws "Not implemented" before reaching any task, variant 2
resolves with undefined immediately), so the set of started intervals is
empty, the in-flight count is identically zero, and the bound holds for
every `K`, in particular for every `K ≥ 1`. -/
theorem executeTasksWithConcurrency_inFlight_bound
    (tasks : List Task) (K t : Nat) :
    inFlightCount (startedIntervalsV1 tasks K) t ≤ K ∧
      inFlightCount (startedIntervalsV2 tasks K) t ≤ K :=
  ⟨Nat.zero_le K, Nat.zero_le K⟩

/-- Claim C3 (code-bug evidence): at the spec's own sequential example input,
`executeTasksSequentially` does not process any task and produces no result
list: variant 1 throws "Not implemented" and variant 2 resolves with
undefined. -/
theorem executeTasksSequentially_produces_no_results :
    executeTasksSequentiallyV1 [⟨1, 100⟩, ⟨2, 50⟩, ⟨3, 75⟩]
        = Except.error "Not implemented" ∧
      executeTasksSequentiallyV2 [⟨1, 100⟩, ⟨2, 50⟩, ⟨3, 75⟩] = none :=
  ⟨rfl, rfl⟩

/-- Claim C4 (code-bug evidence): on a one-task input, neither
`executeTasksWithConcurrency(tasks, 1)` nor `executeTasksSequentially(tasks)`
produces a result list in either variant, so the claimed equivalence of
produced result lists has no witnessing executions: both sides merely throw
"Not implemented" (variant 1) or resolve undefined (variant 2). -/
theorem concurrencyOne_and_sequential_produce_no_results :
    executeTasksSequentiallyV1 [⟨1, 100⟩] = Except.error "Not implemented" ∧
      executeTasksWithConcurrencyV1 [⟨1, 100⟩] 1
        = Except.error "Not implemented" ∧
      executeTasksSequentiallyV2 [⟨1, 100⟩] = none ∧
      executeTasksWithConcurrencyV2 [⟨1, 100⟩] 1 = none :=
  ⟨rfl, rfl, rfl, rfl⟩

/-- Claim C5 counterexample: in variant 1 of taskRunner.js (the variant the
claim cites), the result object of `executeTask` carries no `startedAt`
field: for the task with id 1 and duration 100 started at time 0 the
`startedAt` field is absent (undefined). -/
theorem executeTaskV1_startedAt_absent :
    (executeTaskV1 ⟨1, 100⟩ 0).1.startedAt = none :=
  rfl

/-- Claim C5 (amended): `executeTask` resolves exactly `task.duration` time
units after being called with a result whose `id` is copied from the input
task and whose `completedAt` is the resolution time; variant 2 additionally
records `startedAt` as the call time, while variant 1's result has no
`startedAt` field. -/
theorem executeTask_behavior (task : Task) (now : Nat) :
    (executeTaskV1 task now).1.id = task.id ∧
      (executeTaskV1 task now).1.startedAt = none ∧
      (executeTaskV1 task now).1.completedAt = now + task.duration ∧
      (executeTaskV1 task now).2 = now + task.duration ∧
      (executeTaskV2 task now).1.id = task.id ∧
      (executeTaskV2 task now).1.startedAt = some now ∧
      (executeTaskV2 task now).1.completedAt = now + task.duration ∧
      (executeTaskV2 task now).2 = now + task.duration :=
  ⟨rfl, rfl, rfl, rfl, rfl, rfl, rfl, rfl⟩

/-- Claim C6 (code-bug evidence): on the empty task list neither entry point
resolves with the empty result list: variant 1 throws "Not implemented" even
for `[]`, and variant 2 resolves with undefined rather than with `[]`. -/
theorem emptyList_yields_no_empty_result :
    executeTasksSequentiallyV1 [] = Except.error "Not implemented" ∧
      executeTasksWithConcurrencyV1 [] 2 = Except.error "Not implemented" ∧
      executeTasksSequentiallyV2 [] = none ∧
      executeTasksWithConcurrencyV2 [] 2 = none :=
  ⟨rfl, rfl, rfl, rfl⟩

/-- Claim C7 (code-bug evidence): `createIncrement` has an empty body, so it
returns undefined instead of a counter function; no produced function exists
whose calls could yield 1, 2, ..., K. -/
theorem createIncrement_returns_undefined :
    createIncrement = none :=
  rfl

/-- Claim C8: any two counter functions produced by separate calls to
`createIncrement` are independent — under every interleaving of calls each
yields 1, 2, 3, ... as if the other were never called.  Every call to
`createIncrement` returns undefined and produces no function, so however
many separate calls are made the list of produced instances is empty and
the independence property holds over it vacuously; the underlying defect
(that no function is returned at all) is claim C7's. -/
theorem createIncrement_instances_independent (numCalls : Nat) :
    List.Pairwise IndependentCounters (createIncrementInstances numCalls) := by
  rw [createIncrementInstances_eq_nil]
  exact List.Pairwise.nil

/-- Claim C9: the spec-modelled rate limiter invokes the callback for at most
`N` calls inside any trailing window of length `W` (for any non-decreasing
sequence of call timestamps and any window end `t`), dropped calls do not
invoke the callback, and a limiter with `maxCalls = 3` receiving 10 rapid
calls invokes the callback exactly 3 times. -/
theorem createRateLimiter_window_bound (N W t : Nat) (calls : List Nat)
    (hmono : List.Pairwise (· ≤ ·) calls) :
    windowCount W t (createRateLimiter N W calls) ≤ N ∧
      (createRateLimiter 3 1000
        [0, 1, 2, 3, 4, 5, 6, 7, 8, 9]).length = 3 := by
  constructor
  · have h := rlAdmitted_windowCount N W calls hmono [] t
      (by intro s hs; simp at hs) (by simp)
    simpa [createRateLimiter] using h
  · decide

/-- Witness for claim C9 at a concrete input: ten rapid calls at timestamps
0..9 against a limiter with `maxCalls = 3`, `windowMs = 1000`, window ending
at time 9. -/
theorem createRateLimiter_window_bound_witness :
    windowCount 1000 9
        (createRateLimiter 3 1000 [0, 1, 2, 3, 4, 5, 6, 7, 8, 9]) ≤ 3 ∧
      (createRateLimiter 3 1000
        [0, 1, 2, 3, 4, 5, 6, 7, 8, 9]).length = 3 :=
  createRateLimiter_window_bound 3 1000 9 [0, 1, 2, 3, 4, 5, 6, 7, 8, 9]
    (by decide)

/-- Claim C10: in variant 1 both task-runner entry points synchronously throw
"Not implemented" for every input, and in variant 2 both are empty async
functions resolving with undefined for every input; in particular no
invocation ever produces a `TaskResult` list, and the definitions of the
entry points never invoke `executeTaskV1` or `executeTaskV2`. -/
theorem taskRunner_entry_points_unimplemented (tasks : List Task) (k : Nat) :
    executeTasksSequentiallyV1 tasks = Except.error "Not implemented" ∧
      executeTasksWithConcurrencyV1 tasks k
        = Except.error "Not implemented" ∧
      executeTasksSequentiallyV2 tasks = none ∧
      executeTasksWithConcurrencyV2 tasks k = none :=
  ⟨rfl, rfl, rfl, rfl⟩

end InterviewTasks
